import Mathlib

/-!
Verification development for `src/include/public/ara/core/future.h`
(`ara::core::Future<T, E>` built on top of `std::future<T>`).

The consumer-facing operations of `ara::core::Future` are embedded as pure
Lean functions over an explicit model of the shared asynchronous state.
Functions whose bodies appear in the header (`get`, `GetResult`, the move
constructor and move assignment) are translated from the source; members
that are only declared in the header (`valid`, `wait_for`, `is_ready`,
`then`) and headers not present in the repository snapshot
(`future_error_domain.h`, `error_code.h`, the producer side) are modelled
from the specification and marked as such in their doc comments.
-/

namespace ara

/-- Modelled from the spec: `ara::core::future_errc` from
`future_error_domain.h` (header not in the repository snapshot). The closed
set of classified error kinds used by `Future::GetResult`; the spec's table
names them BrokenLink, AlreadyRetrieved, NoState, AlreadySatisfied and
Other, the last one being the code's `kInvalidArgument`. -/
inductive future_errc where
  | broken_promise
  | future_already_retrieved
  | no_state
  | promise_already_satisfied
  | kInvalidArgument
deriving DecidableEq, Repr

/-- Modelled from the spec: `ara::core::ErrorCode` from `error_code.h`
(header not in the repository snapshot): an error value that is implicitly
constructible from a `future_errc` (as used by `R::FromError(future_errc::...)`
in `GetResult`) and can also carry an error from any other domain. -/
inductive ErrorCode where
  | future (c : future_errc)
  | userDefined (code : Int)
deriving DecidableEq, Repr

/-- The raw low-level condition carried by a `std::future_error`, i.e. the
value `static_cast<std::future_errc>(ex.code().value())` switched on in
`Future::GetResult` (future.h line 71): one of the four named enumerators,
or any other integer code reaching the `default:` branch. -/
inductive StdFutureErrc where
  | brokenPromise
  | futureAlreadyRetrieved
  | noState
  | promiseAlreadySatisfied
  | otherCode (c : Int)
deriving DecidableEq, Repr

/-- Modelled from the spec: the two-variant result container
`ara::core::Result<T, E>` from `result.h` (header not in the repository
snapshot), holding either a value or an error. -/
inductive Result (T E : Type) where
  | ok (v : T)
  | err (e : E)
deriving DecidableEq, Repr

/-- The `Result<T, E>::FromError` constructor as used inside `GetResult`
with a `future_errc` argument (the implicit conversion to `ErrorCode` is
part of the modelled `ErrorCode`). -/
def Result.FromError (T : Type) (c : future_errc) : Result T ErrorCode :=
  Result.err (ErrorCode.future c)

/-- The error-classification switch inside `Future::GetResult`
(future.h lines 71 to 83): each recognized `std::future_errc` enumerator is
mapped to the equally named `future_errc` kind, and the `default:` branch
maps every other raw code to `kInvalidArgument`. -/
def classify : StdFutureErrc → future_errc
  | StdFutureErrc.brokenPromise => future_errc.broken_promise
  | StdFutureErrc.futureAlreadyRetrieved => future_errc.future_already_retrieved
  | StdFutureErrc.noState => future_errc.no_state
  | StdFutureErrc.promiseAlreadySatisfied => future_errc.promise_already_satisfied
  | StdFutureErrc.otherCode _ => future_errc.kInvalidArgument

/-- The outcome slot of the shared state behind a `std::future<T>`:
not yet produced, a published value, a stored producer error
(spec section 3, SharedState.outcome), or abandoned (producer destroyed
without publishing). -/
inductive Outcome (T : Type) where
  | empty
  | value (v : T)
  | storedError (e : ErrorCode)
  | abandoned
deriving DecidableEq, Repr

/-- The consumer handle `ara::core::Future<T>` (future.h line 152 member
`std::future<T> future_`): it either refers to a shared state with the given
outcome, or is invalid (default-constructed or moved-from or already
consumed: `st = none`). -/
structure Future (T : Type) where
  st : Option (Outcome T)
deriving DecidableEq, Repr

/-- A failure raised by the underlying `std::future<T>::get`: either a
`std::future_error` carrying a raw condition, or (modelled from the spec:
the producer-side error transport of `Promise::SetError` is not in the
repository snapshot) the stored domain error of the shared state. -/
inductive Failure where
  | cond (c : StdFutureErrc)
  | stored (e : ErrorCode)
deriving DecidableEq, Repr

/-- The result of one call to the underlying `std::future<T>::get`:
the call blocks (shared state not yet ready), returns a value, or raises a
failure. -/
inductive GetOut (T : Type) where
  | blocked
  | ret (v : T)
  | raises (f : Failure)
deriving DecidableEq, Repr

/-- Semantics of the underlying `std::future<T>::get` on the consumer
handle, as the checked implementations used by this header behave (the
dedicated `no_state` case in `GetResult` anticipates exactly this): on an
invalid handle it raises `no_state`; on a not-yet-ready state it blocks; on
a ready state it delivers the value or raises the stored failure
(`broken_promise` for an abandoned state) and releases the shared state, so
the handle is invalid afterwards. -/
def channelGet {T : Type} : Future T → GetOut T × Future T
  | ⟨none⟩ => (GetOut.raises (Failure.cond StdFutureErrc.noState), ⟨none⟩)
  | ⟨some Outcome.empty⟩ => (GetOut.blocked, ⟨some Outcome.empty⟩)
  | ⟨some (Outcome.value v)⟩ => (GetOut.ret v, ⟨none⟩)
  | ⟨some (Outcome.storedError e)⟩ => (GetOut.raises (Failure.stored e), ⟨none⟩)
  | ⟨some Outcome.abandoned⟩ => (GetOut.raises (Failure.cond StdFutureErrc.brokenPromise), ⟨none⟩)

/-- The accessor `Future::get` (future.h line 63): its whole body is
`return future_.get();`, so it is exactly the underlying channel get. -/
def Future.get {T : Type} (f : Future T) : GetOut T × Future T :=
  channelGet f

/-- The result of one call to `Future::GetResult`: the call blocks, or
returns a `Result`. `GetResult` is `noexcept` and never raises. -/
inductive GROut (T : Type) where
  | blocked
  | result (r : Result T ErrorCode)
deriving DecidableEq, Repr

/-- The accessor `Future::GetResult` (future.h lines 67 to 85): it calls
`future_.get()` inside a `try`; a returned value is wrapped as a successful
`Result`; a caught `std::future_error` is classified by the switch and
returned through `Result::FromError`. The arm for a stored domain error is
modelled from the spec (the producer-side error transport is not in the
repository snapshot; the spec requires `get_result` to fold the stored
error into the typed error variant). -/
def GetResult {T : Type} (f : Future T) : GROut T × Future T :=
  match channelGet f with
  | (GetOut.blocked, f') => (GROut.blocked, f')
  | (GetOut.ret v, f') => (GROut.result (Result.ok v), f')
  | (GetOut.raises (Failure.cond c), f') => (GROut.result (Result.FromError T (classify c)), f')
  | (GetOut.raises (Failure.stored e), f') => (GROut.result (Result.err e), f')

/-- Joint state of one producer/consumer channel: the shared cell's outcome
and whether the consumer handle still refers to the shared state
(`attached = false` models an invalid or already-consumed handle). -/
structure Sys (T : Type) where
  cell : Outcome T
  attached : Bool
deriving DecidableEq, Repr

/-- The consumer handle's view of the channel: the shared state when still
attached, an invalid handle otherwise. -/
def toFuture {T : Type} (s : Sys T) : Future T :=
  ⟨if s.attached then some s.cell else none⟩

/-- The state of a freshly created channel: no outcome published yet, one
valid consumer handle. -/
def initSys (T : Type) : Sys T :=
  ⟨Outcome.empty, true⟩

/-- Modelled from the spec: `Future::is_ready` (declared at future.h line
149, body not in the repository snapshot; its doc comment says it is true
if the Future contains a value or an error): the shared cell holds some
outcome, i.e. it is no longer empty. -/
def isReady {T : Type} (s : Sys T) : Bool :=
  match s.cell with
  | Outcome.empty => false
  | _ => true

/-- Specifies the state of a Future as returned by `wait_for` and
`wait_until` (future.h lines 18 to 25). -/
inductive future_status where
  | ready
  | timeout
deriving DecidableEq, Repr

/-- Modelled from the spec: `Future::wait_for` with a zero timeout
(declared at future.h line 102, body not in the repository snapshot): a
pure poll that reports `ready` exactly when the shared state already holds
an outcome, and `timeout` otherwise. -/
def waitForZero {T : Type} (f : Future T) : future_status :=
  match f.st with
  | some Outcome.empty => future_status.timeout
  | some _ => future_status.ready
  | none => future_status.timeout

/-- Modelled from the spec: a channel together with the (possibly never
occurring) instant at which its shared state becomes ready, used to state
the windowed contract of `wait_for`. -/
structure TChan where
  readyAt : Option Nat
deriving DecidableEq, Repr

/-- Modelled from the spec: `Future::wait_for` (declared at future.h line
102, body not in the repository snapshot): called at instant `now` with
timeout duration `d`, it blocks up to `d` and reports `ready` when the
shared state becomes ready within the window, `timeout` otherwise. It
returns only a status and leaves the channel untouched. -/
def waitFor (now d : Nat) (c : TChan) : future_status :=
  match c.readyAt with
  | some t => if t ≤ now + d then future_status.ready else future_status.timeout
  | none => future_status.timeout

/-- One operation on a channel: a producer publish of a value or an error,
a producer abandonment, or a consumer retrieval or zero-timeout poll. -/
inductive Op (T : Type) where
  | publish (v : T)
  | publishError (e : ErrorCode)
  | abandon
  | doGet
  | doGetResult
  | doWaitForZero
deriving DecidableEq, Repr

/-- The observable effect of one operation: the producer call succeeded or
raised, the consumer call blocked, delivered a value, raised a failure
(`get`), returned a `Result` (`GetResult`), or reported a wait status. -/
inductive Obs (T : Type) where
  | pubOk
  | pubAlreadySatisfied
  | blockedObs
  | delivered (v : T)
  | raised (f : Failure)
  | got (r : Result T ErrorCode)
  | status (st : future_status)
deriving DecidableEq, Repr

/-- Small-step semantics of one channel operation. Producer publishes
transition the empty cell exactly once; a second publish fails with
`promise_already_satisfied` and leaves the state unchanged (spec section
4.1). Consumer retrievals act through `Future::get` and
`Future::GetResult` on the handle's view; a retrieval that completes
releases the handle's reference to the shared state. -/
def stepOp {T : Type} : Op T → Sys T → Sys T × Obs T
  | Op.publish v, s =>
      match s.cell with
      | Outcome.empty => ({ s with cell := Outcome.value v }, Obs.pubOk)
      | _ => (s, Obs.pubAlreadySatisfied)
  | Op.publishError e, s =>
      match s.cell with
      | Outcome.empty => ({ s with cell := Outcome.storedError e }, Obs.pubOk)
      | _ => (s, Obs.pubAlreadySatisfied)
  | Op.abandon, s =>
      match s.cell with
      | Outcome.empty => ({ s with cell := Outcome.abandoned }, Obs.pubOk)
      | _ => (s, Obs.pubOk)
  | Op.doGet, s =>
      match Future.get (toFuture s) with
      | (GetOut.blocked, f') => ({ s with attached := f'.st.isSome }, Obs.blockedObs)
      | (GetOut.ret v, f') => ({ s with attached := f'.st.isSome }, Obs.delivered v)
      | (GetOut.raises f, f') => ({ s with attached := f'.st.isSome }, Obs.raised f)
  | Op.doGetResult, s =>
      match GetResult (toFuture s) with
      | (GROut.blocked, f') => ({ s with attached := f'.st.isSome }, Obs.blockedObs)
      | (GROut.result r, f') => ({ s with attached := f'.st.isSome }, Obs.got r)
  | Op.doWaitForZero, s => (s, Obs.status (waitForZero (toFuture s)))

/-- Run a sequence of channel operations, collecting the observations. -/
def run {T : Type} : List (Op T) → Sys T → Sys T × List (Obs T)
  | [], s => (s, [])
  | op :: ops, s =>
      let p := stepOp op s
      let q := run ops p.1
      (q.1, p.2 :: q.2)

/-- Whether an observation is a delivery of a successful value to the
consumer, either through `get` or through `GetResult`. -/
def isDelivery {T : Type} : Obs T → Bool
  | Obs.delivered _ => true
  | Obs.got (Result.ok _) => true
  | _ => false

/-- Number of successful value deliveries in a list of observations. -/
def deliveryCount {T : Type} (l : List (Obs T)) : Nat :=
  l.countP isDelivery

/-- A consumer handle reduced to which shared state it refers to: shared
states are identified by a number, `none` is an invalid handle (the
`std::future<T> future_` member seen as a reference). -/
structure Handle where
  ref : Option Nat
deriving DecidableEq, Repr

/-- The default constructor (future.h line 35): the handle refers to no
shared state. -/
def defaultHandle : Handle :=
  ⟨none⟩

/-- The move constructor (future.h line 43): the new object starts with a
default-constructed `future_` and runs `std::swap(other.future_, future_)`,
so it takes over the source's reference and the source is left referring to
no shared state. The pair is (constructed object, moved-from source). -/
def moveCtor (other : Handle) : Handle × Handle :=
  (⟨other.ref⟩, defaultHandle)

/-- The move-assignment operator (future.h lines 52 to 56). Its body is the
single statement `future_ = std::move(other.future_);`: the target releases
its own reference and takes over the source's, the source is left invalid.
The body contains no return statement, so the returned-reference slot of
this value-returning function stays empty (`none`), although the signature
is `Future&` and the doc comment promises `@return *this`. The result is
((assigned-to target, moved-from source), returned reference). -/
def moveAssignBody (target other : Handle) : (Handle × Handle) × Option Unit :=
  ((⟨other.ref⟩, ⟨none⟩), none)

/-- The state effect of the move-assignment operator (future.h line 56). -/
def moveAssign (target other : Handle) : Handle × Handle :=
  (moveAssignBody target other).1

/-- Modelled from the spec: `Future::valid` (declared at future.h line 91,
body not in the repository snapshot; its doc comment says the Future is
valid iff it has a shared state): the handle refers to some shared state. -/
def valid (h : Handle) : Bool :=
  h.ref.isSome

/-- Number of handles in a list that refer to the shared state `s`. -/
def refCount (s : Nat) (l : List Handle) : Nat :=
  l.countP fun h => h.ref == some s

/-- The member surface of `ara::core::Future`: every member declared by
the primary template (future.h lines 30 to 153). -/
inductive Member where
  | defaultCtor
  | copyCtor
  | moveCtorM
  | dtor
  | copyAssign
  | moveAssignM
  | getM
  | getResultM
  | validM
  | waitM
  | waitForM
  | waitUntilM
  | thenM
  | thenExecM
  | isReadyM
deriving DecidableEq, Repr

/-- Which members the primary template `Future<T, E>` makes available: all
of them except the copy constructor and copy assignment, which are deleted
(future.h lines 38 and 50). -/
def primaryAvailable : Member → Bool
  | Member.copyCtor => false
  | Member.copyAssign => false
  | _ => true

/-- Which members the specialization `Future<void, E>` declares
(future.h lines 157 to 163): only the default constructor. -/
def voidDeclares : Member → Bool
  | Member.defaultCtor => true
  | _ => false

/-- The final outcome a completed future exposes to a continuation: a value
or an error (an abandoned state appears as the BrokenLink error). -/
inductive FinalOut (T E : Type) where
  | val (v : T)
  | er (e : E)
deriving DecidableEq, Repr

/-- Modelled from the spec: a future abstracted to the instant at which it
completes and the final outcome it completes with, used to state the
unwrapping contract of `then`. -/
structure MFuture (T E : Type) where
  readyAt : Nat
  out : FinalOut T E
deriving DecidableEq, Repr

/-- Modelled from the spec: `Future::then` (declared at future.h line 126,
body not in the repository snapshot) in the case where the continuation's
return type `U` is itself a `Future<T2, E2>`: the returned future is the
inner future's eventual completion, flattened one level, so it is ready no
earlier than both this future and the inner one, and completes with the
inner future's outcome. -/
def thenFutureCase {T E T2 E2 : Type} (fut : MFuture T E)
    (func : FinalOut T E → MFuture T2 E2) : MFuture T2 E2 :=
  let inner := func fut.out
  ⟨max fut.readyAt inner.readyAt, inner.out⟩

/-- Modelled from the spec: `Future::then` (declared at future.h line 126,
body not in the repository snapshot) in the case where the continuation's
return type `U` is a `Result<T2, E2>`: the returned future completes as
soon as the continuation returns, carrying the contained value or error. -/
def thenResultCase {T E T2 E2 : Type} (fut : MFuture T E)
    (func : FinalOut T E → Result T2 E2) : MFuture T2 E2 :=
  ⟨fut.readyAt,
   match func fut.out with
   | Result.ok v => FinalOut.val v
   | Result.err e => FinalOut.er e⟩

/-- Modelled from the spec: `Future::then` (declared at future.h line 126,
body not in the repository snapshot) in the remaining case: the returned
future is a plain `Future<U, E>` completing with the continuation's return
value as soon as the continuation returns. -/
def thenPlainCase {T E U : Type} (fut : MFuture T E)
    (func : FinalOut T E → U) : MFuture U E :=
  ⟨fut.readyAt, FinalOut.val (func fut.out)⟩

/-- Helper: every step either makes no delivery and keeps the handle's
attachment unchanged, or starts from an attached handle and detaches it. -/
lemma stepOp_delivery_inv {T : Type} (op : Op T) (s : Sys T) :
    (isDelivery (stepOp op s).2 = false ∧ (stepOp op s).1.attached = s.attached)
  ∨ (s.attached = true ∧ (stepOp op s).1.attached = false) := by
  obtain ⟨cell, attached⟩ := s
  cases op <;> cases attached <;> cases cell <;>
    simp [stepOp, toFuture, Future.get, channelGet, GetResult, Result.FromError, isDelivery]

/-- Helper: the number of deliveries along any run is bounded by one when
the handle is attached and by zero once it is detached. -/
lemma deliveries_le_attached {T : Type} :
    ∀ (ops : List (Op T)) (s : Sys T),
      deliveryCount (run ops s).2 ≤ (if s.attached then 1 else 0) := by
  intro ops
  induction ops with
  | nil => intro s; simp [run, deliveryCount]
  | cons op ops ih =>
      intro s
      have hrest := ih (stepOp op s).1
      have hc : deliveryCount (run (op :: ops) s).2
          = deliveryCount (run ops (stepOp op s).1).2
            + (if isDelivery (stepOp op s).2 then 1 else 0) := by
        simp [run, deliveryCount, List.countP_cons]
      rw [hc]
      rcases stepOp_delivery_inv op s with ⟨hobs, hatt⟩ | ⟨hs, hatt⟩
      · rw [hatt] at hrest
        rw [hobs]
        simpa using hrest
      · rw [hatt] at hrest
        simp at hrest
        rw [hs]
        simp [hrest]
        split <;> omega

/-- Helper: a step never changes the shared cell once it holds an
outcome. -/
lemma stepOp_cell_preserved {T : Type} (op : Op T) (s : Sys T)
    (h : s.cell ≠ Outcome.empty) : (stepOp op s).1.cell = s.cell := by
  obtain ⟨cell, attached⟩ := s
  cases op <;> cases attached <;> cases cell <;>
    simp_all [stepOp, toFuture, Future.get, channelGet, GetResult, Result.FromError]

/-- Helper: readiness of the shared cell means the cell is not empty. -/
lemma isReady_true_iff {T : Type} (s : Sys T) :
    isReady s = true ↔ s.cell ≠ Outcome.empty := by
  obtain ⟨cell, attached⟩ := s
  cases cell <;> simp [isReady]

/-- C1: on every reachable handle state (value present, stored error,
abandoned, already retrieved, or invalid handle), `GetResult` blocks
exactly when `get` blocks, has the same effect on the handle, and never
propagates a failure: a value delivered by the channel is wrapped as a
successful `Result`, every raised `std::future_error` condition is mapped
through the classification switch into a typed error, and a stored domain
error is folded into the error variant. -/
theorem getResult_never_raises_and_matches_get (T : Type) (f : Future T) :
    ((GetResult f).1 = GROut.blocked ↔ (Future.get f).1 = GetOut.blocked)
  ∧ (GetResult f).2 = (Future.get f).2
  ∧ (∀ v : T, (Future.get f).1 = GetOut.ret v →
      (GetResult f).1 = GROut.result (Result.ok v))
  ∧ (∀ c : StdFutureErrc, (Future.get f).1 = GetOut.raises (Failure.cond c) →
      (GetResult f).1 = GROut.result (Result.err (ErrorCode.future (classify c))))
  ∧ (∀ e : ErrorCode, (Future.get f).1 = GetOut.raises (Failure.stored e) →
      (GetResult f).1 = GROut.result (Result.err e)) := by
  obtain ⟨st⟩ := f
  rcases st with _ | o
  · refine ⟨by simp [GetResult, Future.get, channelGet], rfl, ?_, ?_, ?_⟩ <;>
      intro x hx <;>
      simp_all [GetResult, Future.get, channelGet, Result.FromError]
  · cases o <;>
      refine ⟨by simp [GetResult, Future.get, channelGet], rfl, ?_, ?_, ?_⟩ <;>
      intro x hx <;>
      simp_all [GetResult, Future.get, channelGet, Result.FromError]

/-- C1 witness: evaluating `GetResult` on a handle holding the value 42 and
on a handle holding a stored error. -/
theorem getResult_never_raises_witness :
    (GetResult (⟨some (Outcome.value 42)⟩ : Future Nat)).1
      = GROut.result (Result.ok 42)
  ∧ (GetResult (⟨some (Outcome.storedError (ErrorCode.userDefined 5))⟩ : Future Nat)).1
      = GROut.result (Result.err (ErrorCode.userDefined 5)) :=
  ⟨(getResult_never_raises_and_matches_get Nat ⟨some (Outcome.value 42)⟩).2.2.1 42 rfl,
   (getResult_never_raises_and_matches_get Nat
      ⟨some (Outcome.storedError (ErrorCode.userDefined 5))⟩).2.2.2.2
      (ErrorCode.userDefined 5) rfl⟩

/-- C2: the classification switch of `GetResult` realizes the spec's table
as a total function: `broken_promise` maps to BrokenLink, `future_already_retrieved`
to AlreadyRetrieved, `no_state` to NoState, `promise_already_satisfied` to
AlreadySatisfied, and every other raw code to the catch-all kind
(`kInvalidArgument`, the spec's Other). -/
theorem classify_total_table :
    classify StdFutureErrc.brokenPromise = future_errc.broken_promise
  ∧ classify StdFutureErrc.futureAlreadyRetrieved = future_errc.future_already_retrieved
  ∧ classify StdFutureErrc.noState = future_errc.no_state
  ∧ classify StdFutureErrc.promiseAlreadySatisfied = future_errc.promise_already_satisfied
  ∧ ∀ c : Int, classify (StdFutureErrc.otherCode c) = future_errc.kInvalidArgument :=
  ⟨rfl, rfl, rfl, rfl, fun _ => rfl⟩

/-- C3 (amended): along every sequence of publish and `get`/`GetResult`
operations from a fresh channel, a successful value is delivered at most
once; a completed retrieval detaches the handle from the shared state,
detachment persists, and any retrieval on a detached handle reports the
`no_state` error (not `future_already_retrieved`). -/
theorem exactly_once_delivery (T : Type) :
    (∀ ops : List (Op T), deliveryCount (run ops (initSys T)).2 ≤ 1)
  ∧ (∀ s : Sys T, s.attached = false →
        stepOp Op.doGetResult s
          = (s, Obs.got (Result.err (ErrorCode.future future_errc.no_state)))
      ∧ stepOp Op.doGet s = (s, Obs.raised (Failure.cond StdFutureErrc.noState)))
  ∧ (∀ (s : Sys T) (op : Op T) (v : T),
        ((stepOp op s).2 = Obs.delivered v ∨ (stepOp op s).2 = Obs.got (Result.ok v)) →
        (stepOp op s).1.attached = false)
  ∧ (∀ (s : Sys T) (op : Op T), s.attached = false → (stepOp op s).1.attached = false) := by
  refine ⟨?_, ?_, ?_, ?_⟩
  · intro ops
    have h := deliveries_le_attached ops (initSys T)
    simpa [initSys] using h
  · intro s hs
    obtain ⟨cell, attached⟩ := s
    simp only at hs
    subst hs
    constructor <;>
      simp [stepOp, toFuture, Future.get, channelGet, GetResult, Result.FromError, classify]
  · intro s op v hv
    rcases stepOp_delivery_inv op s with ⟨hobs, _⟩ | ⟨_, hatt⟩
    · rcases hv with hv | hv <;> rw [hv] at hobs <;> simp [isDelivery] at hobs
    · exact hatt
  · intro s op hs
    rcases stepOp_delivery_inv op s with ⟨_, hatt⟩ | ⟨hs', _⟩
    · rw [hatt, hs]
    · rw [hs] at hs'; cases hs'

/-- C3 witness: a concrete run of publish and two retrievals, and a
retrieval on a detached handle. -/
theorem exactly_once_delivery_witness :
    deliveryCount (run [Op.publish 7, Op.doGetResult, Op.doGetResult] (initSys Nat)).2 ≤ 1
  ∧ stepOp Op.doGetResult (⟨Outcome.value 7, false⟩ : Sys Nat)
      = (⟨Outcome.value 7, false⟩,
         Obs.got (Result.err (ErrorCode.future future_errc.no_state))) :=
  ⟨(exactly_once_delivery Nat).1 [Op.publish 7, Op.doGetResult, Op.doGetResult],
   ((exactly_once_delivery Nat).2.1 ⟨Outcome.value 7, false⟩ rfl).1⟩

/-- C3 counterexample: after publishing 7 and retrieving it once, a second
`GetResult` on the same channel observes the `no_state` error, not the
`future_already_retrieved` error the claim expects: the first retrieval
releases the handle's reference, so the second call acts on an invalid
handle. -/
theorem second_retrieval_not_already_retrieved :
    (run [Op.publish 7, Op.doGetResult, Op.doGetResult] (initSys Nat)).2
      = [Obs.pubOk, Obs.got (Result.ok 7),
         Obs.got (Result.err (ErrorCode.future future_errc.no_state))]
  ∧ (run [Op.publish 7, Op.doGetResult, Op.doGetResult] (initSys Nat)).2
      ≠ [Obs.pubOk, Obs.got (Result.ok 7),
         Obs.got (Result.err (ErrorCode.future future_errc.future_already_retrieved))] := by
  constructor
  · rfl
  · decide

/-- C4: the unwrapping contract of `then`. When the continuation returns a
future, the future returned by `then` carries exactly the inner future's
outcome (never a future-of-future) and completes no earlier than either
this future or the inner one; when the continuation returns a `Result`,
the returned future completes with the contained value or error as soon as
the continuation returns; otherwise the returned future completes with the
continuation's plain return value as soon as it returns. -/
theorem then_unwrapping (T E T2 E2 U : Type) :
    (∀ (fut : MFuture T E) (func : FinalOut T E → MFuture T2 E2),
        (thenFutureCase fut func).out = (func fut.out).out
      ∧ (func fut.out).readyAt ≤ (thenFutureCase fut func).readyAt
      ∧ fut.readyAt ≤ (thenFutureCase fut func).readyAt)
  ∧ (∀ (fut : MFuture T E) (func : FinalOut T E → Result T2 E2),
        (∀ v, func fut.out = Result.ok v → (thenResultCase fut func).out = FinalOut.val v)
      ∧ (∀ e, func fut.out = Result.err e → (thenResultCase fut func).out = FinalOut.er e)
      ∧ (thenResultCase fut func).readyAt = fut.readyAt)
  ∧ (∀ (fut : MFuture T E) (func : FinalOut T E → U),
        (thenPlainCase fut func).out = FinalOut.val (func fut.out)
      ∧ (thenPlainCase fut func).readyAt = fut.readyAt) := by
  refine ⟨?_, ?_, ?_⟩
  · intro fut func
    exact ⟨rfl, Nat.le_max_right _ _, Nat.le_max_left _ _⟩
  · intro fut func
    refine ⟨?_, ?_, rfl⟩ <;> intro x hx <;> simp [thenResultCase, hx]
  · intro fut func
    exact ⟨rfl, rfl⟩

/-- C4 witness: a continuation returning an already-completed inner future,
and one returning a successful `Result`. -/
theorem then_unwrapping_witness :
    (thenFutureCase (⟨1, FinalOut.val 3⟩ : MFuture Nat Nat)
        (fun o => (⟨5, o⟩ : MFuture Nat Nat))).out = FinalOut.val 3
  ∧ (thenResultCase (⟨1, FinalOut.val 3⟩ : MFuture Nat Nat)
        (fun _ => (Result.ok 9 : Result Nat Nat))).out = FinalOut.val 9 :=
  ⟨((then_unwrapping Nat Nat Nat Nat Nat).1 ⟨1, FinalOut.val 3⟩
      (fun o => ⟨5, o⟩)).1,
   ((then_unwrapping Nat Nat Nat Nat Nat).2.1 ⟨1, FinalOut.val 3⟩
      (fun _ => Result.ok 9)).1 9 rfl⟩

/-- C5: the consumer handle is move-only. The copy constructor and copy
assignment are deleted; after a move construction or a move assignment the
moved-from handle refers to no shared state, the target holds exactly the
source's old reference, and the number of handles referring to any given
shared state never increases, so a single-referent invariant is
preserved. -/
theorem move_only_single_reference :
    (∀ o : Handle, valid (moveCtor o).2 = false ∧ (moveCtor o).1 = o)
  ∧ (∀ t o : Handle, valid (moveAssign t o).2 = false ∧ (moveAssign t o).1 = ⟨o.ref⟩)
  ∧ (∀ (o : Handle) (s : Nat),
        refCount s [(moveCtor o).1, (moveCtor o).2] = refCount s [o])
  ∧ (∀ (t o : Handle) (s : Nat),
        refCount s [(moveAssign t o).1, (moveAssign t o).2] ≤ refCount s [t, o])
  ∧ primaryAvailable Member.copyCtor = false
  ∧ primaryAvailable Member.copyAssign = false := by
  refine ⟨?_, ?_, ?_, ?_, rfl, rfl⟩
  · intro o; exact ⟨rfl, rfl⟩
  · intro t o; exact ⟨rfl, rfl⟩
  · intro o s
    simp [refCount, moveCtor, defaultHandle, List.countP_cons]
  · intro t o s
    have hL : refCount s [(moveAssign t o).1, (moveAssign t o).2] = refCount s [o] := by
      simp [refCount, moveAssign, moveAssignBody, List.countP_cons]
    rw [hL]
    simp only [refCount, List.countP_cons, List.countP_nil]
    split_ifs <;> omega

/-- C6: the move-assignment operator's body (future.h lines 52 to 56)
performs the member move but executes no return statement, so the
returned-reference slot of this `Future&`-returning function is empty for
every pair of operands, and the documented postcondition of returning
`*this` cannot hold. -/
theorem move_assign_missing_return (t o : Handle) :
    (moveAssignBody t o).2 = none ∧ (moveAssignBody t o).2 ≠ some () :=
  ⟨rfl, by simp [moveAssignBody]⟩

/-- C7: `wait_for` reports `ready` exactly when the shared state becomes
ready within the wait window and `timeout` otherwise; it never consumes
the result: a zero-timeout wait leaves the channel state untouched, a
zero-timeout wait before any publish reports `timeout`, and a subsequent
publish followed by `get` still delivers the published value. -/
theorem wait_for_window_and_nonconsumption (T : Type) (v : T) :
    (∀ (now d : Nat) (c : TChan),
        waitFor now d c = future_status.ready
          ↔ ∃ t, c.readyAt = some t ∧ t ≤ now + d)
  ∧ (∀ s : Sys T, stepOp Op.doWaitForZero s = (s, Obs.status (waitForZero (toFuture s))))
  ∧ waitForZero (toFuture (initSys T)) = future_status.timeout
  ∧ (run [Op.doWaitForZero, Op.publish v, Op.doGet] (initSys T)).2
      = [Obs.status future_status.timeout, Obs.pubOk, Obs.delivered v] := by
  refine ⟨?_, fun s => rfl, rfl, rfl⟩
  intro now d c
  obtain ⟨r⟩ := c
  rcases r with _ | t
  · simp [waitFor]
  · simp only [waitFor]
    split
    · simp only [Option.some.injEq]
      constructor
      · intro _
        exact ⟨t, rfl, by omega⟩
      · intro _
        trivial
    · simp only [Option.some.injEq]
      constructor
      · intro h
        cases h
      · rintro ⟨t', rfl, ht'⟩
        omega

/-- C7 witness: a state that becomes ready at instant 3 is seen `ready` by
a wait of 5 starting at 0, and the concrete poll-publish-get run. -/
theorem wait_for_witness :
    waitFor 0 5 ⟨some 3⟩ = future_status.ready
  ∧ (run [Op.doWaitForZero, Op.publish 42, Op.doGet] (initSys Nat)).2
      = [Obs.status future_status.timeout, Obs.pubOk, Obs.delivered 42] :=
  ⟨((wait_for_window_and_nonconsumption Nat 42).1 0 5 ⟨some 3⟩).mpr
      ⟨3, rfl, by omega⟩,
   (wait_for_window_and_nonconsumption Nat 42).2.2.2⟩

/-- C8: readiness is monotonic: from any state in which `is_ready` reports
true, it still reports true after every sequence of channel operations. -/
theorem is_ready_monotone (T : Type) (ops : List (Op T)) (s : Sys T)
    (h : isReady s = true) : isReady (run ops s).1 = true := by
  induction ops generalizing s with
  | nil => simpa [run] using h
  | cons op ops ih =>
      have hne : s.cell ≠ Outcome.empty := (isReady_true_iff s).mp h
      have hcell := stepOp_cell_preserved op s hne
      have hnext : isReady (stepOp op s).1 = true := by
        rw [isReady_true_iff, hcell]
        exact hne
      simpa [run] using ih (stepOp op s).1 hnext

/-- C8 witness: a ready state with the value 3 stays ready across two
retrievals. -/
theorem is_ready_monotone_witness :
    isReady (run [Op.doGet, Op.doGet] (⟨Outcome.value 3, true⟩ : Sys Nat)).1 = true :=
  is_ready_monotone Nat [Op.doGet, Op.doGet] ⟨Outcome.value 3, true⟩ rfl

/-- C9: calling `GetResult` on an invalid handle (default-constructed or
moved-from) is well defined here: the underlying `no_state` failure is
caught and classified, and `GetResult` returns a `Result` holding the
`no_state` error kind. -/
theorem getResult_invalid_no_state (T : Type) :
    GetResult (⟨none⟩ : Future T)
      = (GROut.result (Result.err (ErrorCode.future future_errc.no_state)), ⟨none⟩) :=
  rfl

/-- C10: the specialization `Future<void, E>` declares only a default
constructor: none of the consumer operations of the primary template
(`get`, `GetResult`, `valid`, `wait`, `wait_for`, `wait_until`, both
`then` overloads, `is_ready`) are part of its surface. -/
theorem void_future_default_ctor_only :
    (∀ m : Member, voidDeclares m = true → m = Member.defaultCtor)
  ∧ voidDeclares Member.defaultCtor = true
  ∧ voidDeclares Member.getM = false
  ∧ voidDeclares Member.getResultM = false
  ∧ voidDeclares Member.validM = false
  ∧ voidDeclares Member.waitM = false
  ∧ voidDeclares Member.waitForM = false
  ∧ voidDeclares Member.waitUntilM = false
  ∧ voidDeclares Member.thenM = false
  ∧ voidDeclares Member.thenExecM = false
  ∧ voidDeclares Member.isReadyM = false := by
  refine ⟨?_, rfl, rfl, rfl, rfl, rfl, rfl, rfl, rfl, rfl, rfl⟩
  intro m h
  cases m <;> simp_all [voidDeclares]

/-- C10 witness: the default constructor is the member the surface
exposes. -/
theorem void_future_default_ctor_only_witness :
    Member.defaultCtor = Member.defaultCtor :=
  void_future_default_ctor_only.1 Member.defaultCtor rfl

end ara
